import Mathlib

/-!
# Product HTTP handlers of `goshop/app/api` (`src/app/api/product.go`)

The four handlers `GetProductByID`, `ListProducts`, `CreateProduct` and
`UpdateProduct` are embedded as functions from their collaborators (the gin
context, the validator, the service, the copier) to the ordered trace of the
effects they perform: service calls, `copier.Copy` calls, log entries and
response writes.  The types `models.Product`, `serializers.Product`,
`serializers.CreateProductReq`, `serializers.UpdateProductReq`,
`serializers.ListProductReq` and the pagination type are declared outside
`src/`; they are the type parameters `P R CQ UQ LQ G`.
-/

namespace GoShop

/-! ## Values shared by the handlers -/

/-- A Go `error` value; `text` is what `err.Error()` returns. -/
structure Error where
  text : String
  deriving DecidableEq, Repr

/-- Constant `http.StatusOK`. -/
def StatusOK : Nat := 200

/-- Constant `http.StatusBadRequest`. -/
def StatusBadRequest : Nat := 400

/-- Constant `http.StatusInternalServerError`. -/
def StatusInternalServerError : Nat := 500

/-- The `context.Context` value handed to a service method: either the value
of `c.Request.Context()` (identified by a number) or the `*gin.Context` `c`
itself, which also satisfies `context.Context`. -/
inductive Context where
  | ofRequest (k : Nat)
  | ofGin
  deriving DecidableEq, Repr

/-- One argument of a `logger.Error(...)` call: a string literal or string
value, or an `error` value (possibly `nil`). -/
inductive LogArg where
  | str (s : String)
  | err (e : Option Error)
  deriving DecidableEq, Repr

/-- The value `serializers.ListProductRes`: the field `Products` and the field
`Pagination`. -/
structure ListProductRes (R G : Type) where
  Products : List R
  Pagination : G
  deriving DecidableEq, Repr

/-- The `interface{}` payloads the handlers pass to the response helpers. -/
inductive Payload (R G : Type) where
  | product (res : R)
  | products (res : List R)
  | list (res : ListProductRes R G)
  deriving DecidableEq, Repr

/-- The second argument of `c.JSON`: either `utils.PrepareResponse(data,
message, code)` (with `data = none` for Go `nil`), kept as the envelope built
from those three arguments, or a `gin.H` map literal. -/
inductive Body (R G : Type) where
  | PrepareResponse (data : Option (Payload R G)) (message : String) (code : String)
  | H (entries : List (String × String))
  deriving DecidableEq, Repr

/-- The source value of a `copier.Copy` call. -/
inductive CopySource (P : Type) where
  | one (product : P)
  | many (products : List P)
  deriving DecidableEq, Repr

/-- The observable effects of a handler, in program order. -/
inductive Event (P R CQ UQ LQ G : Type) where
  | serviceGetProductByID (ctx : Context) (id : String)
  | serviceListProducts (ctx : Context) (req : LQ)
  | serviceCreate (ctx : Context) (req : CQ)
  | serviceUpdate (ctx : Context) (id : String) (req : UQ)
  | copierCopy (src : CopySource P)
  | loggerError (args : List LogArg)
  | ginJSON (status : Nat) (body : Body R G)
  | responseError (status : Nat) (err : Option Error) (message : String)
  | responseJSON (status : Nat) (data : Payload R G)
  deriving DecidableEq, Repr

/-! ## Collaborators -/

/-- The part of `*gin.Context` the handlers read: `c.Param`, whether
`c.Request.Body == nil`, the identity of `c.Request.Context()`, and what
`c.ShouldBindQuery(&req)` / `c.ShouldBindJSON(&req)` leave in `req` together
with the error they return (`none` for `nil`). -/
structure GinContext (CQ UQ LQ : Type) where
  Param : String → String
  RequestBodyIsNil : Bool
  RequestContext : Nat
  ShouldBindQuery : LQ × Option Error
  ShouldBindJSONCreate : CQ × Option Error
  ShouldBindJSONUpdate : UQ × Option Error

/-- The `interface{}` argument of `ValidateStruct`. -/
inductive ReqValue (CQ UQ : Type) where
  | create (req : CQ)
  | update (req : UQ)

/-- Interface `validation.Validation`. -/
structure Validation (CQ UQ : Type) where
  ValidateStruct : ReqValue CQ UQ → Option Error

/-- Interface `services.IProductService`; every method returns its values
together with the error (`none` for `nil`). -/
structure IProductService (P CQ UQ LQ G : Type) where
  GetProductByID : Context → String → P × Option Error
  ListProducts : Context → LQ → List P × G × Option Error
  Create : Context → CQ → P × Option Error
  Update : Context → String → UQ → P × Option Error

/-- The handler value `api.Product`. -/
structure Product (P CQ UQ LQ G : Type) where
  validator : Validation CQ UQ
  service : IProductService P CQ UQ LQ G

/-- Modelled from the spec: the per-record field copy of `copier.Copy`
(package `github.com/jinzhu/copier`, not under `src/`).  `CopyFields dst src`
copies the fields of the domain record `src` that match by name and type into
the response record `dst` and returns the target afterwards with the error, if
any; `zero` is the zero value of `serializers.Product`. -/
structure Copier (P R : Type) where
  CopyFields : R → P → R × Option Error
  zero : R

/-- Modelled from the spec: `copier.Copy(&res, &product)` from one record to
one record ("single-record mapping"). -/
def CopyStruct {P R : Type} (cp : Copier P R) (dst : R) (src : P) : R × Option Error :=
  cp.CopyFields dst src

/-- Modelled from the spec: `copier.Copy(&res, &products)` from a sequence of
records to a sequence of response records ("list-of-records mapping"): every
source record is copied into a fresh zero record that is appended to the
target; the first failing record stops the copy with its error. -/
def CopySlice {P R : Type} (cp : Copier P R) (dst : List R) : List P → List R × Option Error
  | [] => (dst, none)
  | x :: xs =>
    match cp.CopyFields cp.zero x with
    | (_, some e) => (dst, some e)
    | (dest, none) => CopySlice cp (dst ++ [dest]) xs

/-- Modelled from the spec: `copier.Copy(&res, &product)` from one record into
a sequence of response records: the record is copied as a one-element
sequence. -/
def CopyToSlice {P R : Type} (cp : Copier P R) (dst : List R) (src : P) : List R × Option Error :=
  CopySlice cp dst [src]

/-! ## Field-level records and the field copy -/

/-- A field value of a record. -/
inductive Value where
  | str (s : String)
  | int (i : Int)
  | bool (b : Bool)
  deriving DecidableEq, Repr

/-- The type of a field. -/
inductive Kind where
  | str
  | int
  | bool
  deriving DecidableEq, Repr

/-- The type of a field value. -/
def Value.kind : Value → Kind
  | Value.str _ => Kind.str
  | Value.int _ => Kind.int
  | Value.bool _ => Kind.bool

/-- The Go zero value of a field type. -/
def Kind.zero : Kind → Value
  | Kind.str => Value.str ""
  | Kind.int => Value.int 0
  | Kind.bool => Value.bool false

/-- A struct value: its fields by name, in declaration order. -/
abbrev Record := List (String × Value)

/-- The zero value of a struct type given by its field names and types. -/
def zeroRecord (shape : List (String × Kind)) : Record :=
  shape.map (fun f => (f.1, f.2.zero))

/-- Modelled from the spec: the field copy of `copier.Copy` (package
`github.com/jinzhu/copier`, not under `src/`), "copying fields matching on name
and compatible type" and failing "when the target has a field the source cannot
supply with a compatible type".  The fields of the target are filled in order
from the fields of `src` with the same name; the first target field that `src`
lacks, or holds with another type, stops the copy with an error and leaves the
remaining target fields as they were. -/
def copyFieldsInto (src : Record) : Record → Record × Option Error
  | [] => ([], none)
  | (n, old) :: rest =>
    match src.lookup n with
    | none => ((n, old) :: rest, some ⟨"copier: no source field " ++ n⟩)
    | some v =>
      if v.kind = old.kind then
        let r := copyFieldsInto src rest
        ((n, v) :: r.1, r.2)
      else ((n, old) :: rest, some ⟨"copier: incompatible type of field " ++ n⟩)

/-- Modelled from the spec: `copier.Copy` between a domain record and a
response struct type with the given field names and types. -/
def fieldCopier (shape : List (String × Kind)) : Copier Record Record :=
  { CopyFields := fun dst src => copyFieldsInto src dst, zero := zeroRecord shape }

/-! ## The handlers -/

section Handlers

variable {P R CQ UQ LQ G : Type}

/-- Handler `(*Product).GetProductByID` (product.go, lines 36-50). -/
def GetProductByID (cp : Copier P R) (p : Product P CQ UQ LQ G) (c : GinContext CQ UQ LQ) :
    List (Event P R CQ UQ LQ G) :=
  let productId := c.Param "uuid"
  let ctx := Context.ofRequest c.RequestContext
  let r := p.service.GetProductByID ctx productId
  Event.serviceGetProductByID ctx productId ::
    match r.2 with
    | some err =>
      [Event.loggerError [LogArg.str "Failed to get product: ", LogArg.err (some err)],
       Event.ginJSON StatusBadRequest (Body.PrepareResponse none err.text "")]
    | none =>
      -- the error returned by copier.Copy is discarded here
      let res := (CopyStruct cp cp.zero r.1).1
      [Event.copierCopy (CopySource.one r.1),
       Event.ginJSON StatusOK (Body.PrepareResponse (some (Payload.product res)) "OK" "")]

/-- Handler `(*Product).ListProducts` (product.go, lines 58-82). -/
def ListProducts (cp : Copier P R) (p : Product P CQ UQ LQ G) (c : GinContext CQ UQ LQ) :
    List (Event P R CQ UQ LQ G) :=
  let req := c.ShouldBindQuery.1
  match c.ShouldBindQuery.2 with
  | some err =>
    [Event.loggerError [LogArg.str "Failed to parse request query: ", LogArg.err (some err)],
     Event.ginJSON StatusBadRequest (Body.H [("error", err.text)])]
  | none =>
    -- the gin context itself is passed as the context argument
    let r := p.service.ListProducts Context.ofGin req
    Event.serviceListProducts Context.ofGin req ::
      match r.2.2 with
      | some err =>
        [Event.loggerError [LogArg.str "Failed to get products: ", LogArg.err (some err)],
         Event.ginJSON StatusBadRequest (Body.PrepareResponse none err.text "")]
      | none =>
        let k := CopySlice cp [] r.1
        Event.copierCopy (CopySource.many r.1) ::
          match k.2 with
          | some err =>
            [Event.loggerError [LogArg.str err.text],
             Event.responseError StatusInternalServerError (some err) "Something went wrong"]
          | none =>
            [Event.responseJSON StatusOK
              (Payload.list { Products := k.1, Pagination := r.2.1 })]

/-- Handler `(*Product).CreateProduct` (product.go, lines 90-119). -/
def CreateProduct (cp : Copier P R) (p : Product P CQ UQ LQ G) (c : GinContext CQ UQ LQ) :
    List (Event P R CQ UQ LQ G) :=
  let req := c.ShouldBindJSONCreate.1
  let err := c.ShouldBindJSONCreate.2
  if c.RequestBodyIsNil || err.isSome then
    [Event.loggerError [LogArg.str "Failed to get body", LogArg.err err],
     Event.responseError StatusBadRequest err "Invalid parameters"]
  else
    match p.validator.ValidateStruct (ReqValue.create req) with
    | some verr => [Event.responseError StatusBadRequest (some verr) "Invalid parameters"]
    | none =>
      let ctx := Context.ofRequest c.RequestContext
      let r := p.service.Create ctx req
      Event.serviceCreate ctx req ::
        match r.2 with
        | some serr =>
          [Event.loggerError [LogArg.str "Failed to create product", LogArg.str serr.text],
           Event.responseError StatusInternalServerError (some serr) "Something went wrong"]
        | none =>
          let k := CopyToSlice cp [] r.1
          Event.copierCopy (CopySource.one r.1) ::
            match k.2 with
            | some cerr =>
              [Event.loggerError [LogArg.str cerr.text],
               Event.responseError StatusInternalServerError (some cerr) "Something went wrong"]
            | none => [Event.responseJSON StatusOK (Payload.products k.1)]

/-- Handler `(*Product).UpdateProduct` (product.go, lines 127-157). -/
def UpdateProduct (cp : Copier P R) (p : Product P CQ UQ LQ G) (c : GinContext CQ UQ LQ) :
    List (Event P R CQ UQ LQ G) :=
  let id := c.Param "id"
  let req := c.ShouldBindJSONUpdate.1
  let err := c.ShouldBindJSONUpdate.2
  if c.RequestBodyIsNil || err.isSome then
    [Event.loggerError [LogArg.str "Failed to get body", LogArg.err err],
     Event.responseError StatusBadRequest err "Invalid parameters"]
  else
    match p.validator.ValidateStruct (ReqValue.update req) with
    | some verr => [Event.responseError StatusBadRequest (some verr) "Invalid parameters"]
    | none =>
      let ctx := Context.ofRequest c.RequestContext
      let r := p.service.Update ctx id req
      Event.serviceUpdate ctx id req ::
        match r.2 with
        | some serr =>
          [Event.loggerError [LogArg.str "Failed to create product", LogArg.str serr.text],
           Event.responseError StatusInternalServerError (some serr) "Something went wrong"]
        | none =>
          let k := CopyToSlice cp [] r.1
          Event.copierCopy (CopySource.one r.1) ::
            match k.2 with
            | some cerr =>
              [Event.loggerError [LogArg.str cerr.text],
               Event.responseError StatusInternalServerError (some cerr) "Something went wrong"]
            | none => [Event.responseJSON StatusOK (Payload.products k.1)]

/-! ## Observations on a trace -/

/-- Modelled from the spec: `response.Error` and `response.JSON` (package
`goshop/pkg/response`, not under `src/`) write a response with the status they
are given, as `c.JSON` does.  The value is the status of the response an event
writes, if it writes one. -/
def Event.status? : Event P R CQ UQ LQ G → Option Nat
  | Event.ginJSON status _ => some status
  | Event.responseError status _ _ => some status
  | Event.responseJSON status _ => some status
  | _ => none

/-- The statuses of the responses written, in order. -/
def statuses (t : List (Event P R CQ UQ LQ G)) : List Nat :=
  t.filterMap Event.status?

/-- Whether the event is a call of a method of the service. -/
def Event.isServiceCall : Event P R CQ UQ LQ G → Bool
  | Event.serviceGetProductByID _ _ => true
  | Event.serviceListProducts _ _ => true
  | Event.serviceCreate _ _ => true
  | Event.serviceUpdate _ _ _ => true
  | _ => false

/-- The service calls made, in order. -/
def serviceCalls (t : List (Event P R CQ UQ LQ G)) : List (Event P R CQ UQ LQ G) :=
  t.filter Event.isServiceCall

/-- Whether the event is a `copier.Copy` call. -/
def Event.isCopy : Event P R CQ UQ LQ G → Bool
  | Event.copierCopy _ => true
  | _ => false

/-- The context argument of a service call. -/
def Event.context? : Event P R CQ UQ LQ G → Option Context
  | Event.serviceGetProductByID ctx _ => some ctx
  | Event.serviceListProducts ctx _ => some ctx
  | Event.serviceCreate ctx _ => some ctx
  | Event.serviceUpdate ctx _ _ => some ctx
  | _ => none

/-- The context arguments of the service calls made, in order. -/
def serviceContexts (t : List (Event P R CQ UQ LQ G)) : List Context :=
  t.filterMap Event.context?

/-- Whether a status is in the 2xx range. -/
def is2xx (s : Nat) : Bool := decide (200 ≤ s) && decide (s < 300)

/-- Whether an event is a response with an error status (400 and above). -/
def Event.isErrorResponse (e : Event P R CQ UQ LQ G) : Bool :=
  match e.status? with
  | some s => decide (400 ≤ s)
  | none => false

/-- The error an error response reports: the `err` argument of
`response.Error`, or the error whose text is the `message` of the envelope or
the "error" entry of the `gin.H` body. -/
def Event.reported? : Event P R CQ UQ LQ G → Option (Option Error)
  | Event.responseError _ err _ => some err
  | Event.ginJSON _ (Body.PrepareResponse _ message _) => some (some ⟨message⟩)
  | Event.ginJSON _ (Body.H entries) => (entries.lookup "error").map (fun t => some ⟨t⟩)
  | _ => none

/-- Whether a log argument is the given error, as a value or as its text. -/
def LogArg.mentions : LogArg → Option Error → Bool
  | LogArg.err e, r => decide (e = r)
  | LogArg.str s, some r => decide (s = r.text)
  | LogArg.str _, none => false

/-- Whether the event is a log entry that mentions the error reported by the
response `e`. -/
def Event.logs (l e : Event P R CQ UQ LQ G) : Bool :=
  match l, e.reported? with
  | Event.loggerError args, some r => args.any (fun a => a.mentions r)
  | _, _ => false

/-- Whether every error response of the trace is directly preceded by a log
entry for the error it reports; `prev` is the event before the trace. -/
def errorsLoggedFrom (prev : Option (Event P R CQ UQ LQ G)) :
    List (Event P R CQ UQ LQ G) → Bool
  | [] => true
  | e :: es =>
    (!e.isErrorResponse ||
      (match prev with
       | some l => l.logs e
       | none => false)) && errorsLoggedFrom (some e) es

/-- Whether every error response of a handler trace is directly preceded by a
log entry for its error. -/
def errorsLogged (t : List (Event P R CQ UQ LQ G)) : Bool :=
  errorsLoggedFrom none t

/-- The responses written, in order. -/
def responses (t : List (Event P R CQ UQ LQ G)) : List (Event P R CQ UQ LQ G) :=
  t.filter (fun e => e.status?.isSome)

/-- The `copier.Copy` calls made, in order. -/
def copies (t : List (Event P R CQ UQ LQ G)) : List (Event P R CQ UQ LQ G) :=
  t.filter Event.isCopy

/-- Whether the event is a log entry. -/
def Event.isLog : Event P R CQ UQ LQ G → Bool
  | Event.loggerError _ => true
  | _ => false

end Handlers

/-! ## Concrete collaborators used to instantiate the theorems

Records are numbers and requests are strings. -/

/-- A copier that copies every record unchanged. -/
def okCopier : Copier Nat Nat :=
  { CopyFields := fun _ src => (src, none), zero := 0 }

/-- A copier whose field copy fails on every record. -/
def failingCopier : Copier Nat Nat :=
  { CopyFields := fun dst _ => (dst, some ⟨"copy failed"⟩), zero := 0 }

/-- A service that succeeds: product 7, an empty listing with pagination 3. -/
def okService : IProductService Nat String String String Nat :=
  { GetProductByID := fun _ _ => (7, none)
    ListProducts := fun _ _ => ([], 3, none)
    Create := fun _ _ => (7, none)
    Update := fun _ _ _ => (7, none) }

/-- A service whose every method returns an error. -/
def failingService : IProductService Nat String String String Nat :=
  { GetProductByID := fun _ _ => (0, some ⟨"not found"⟩)
    ListProducts := fun _ _ => ([], 0, some ⟨"db down"⟩)
    Create := fun _ _ => (0, some ⟨"db down"⟩)
    Update := fun _ _ _ => (0, some ⟨"db down"⟩) }

/-- A validator that accepts every request. -/
def okValidator : Validation String String :=
  { ValidateStruct := fun _ => none }

/-- A validator that rejects every request. -/
def rejectingValidator : Validation String String :=
  { ValidateStruct := fun _ => some ⟨"name is required"⟩ }

/-- A request whose query and body bind without error. -/
def goodRequest : GinContext String String String :=
  { Param := fun _ => "42"
    RequestBodyIsNil := false
    RequestContext := 1
    ShouldBindQuery := ("page=1", none)
    ShouldBindJSONCreate := ("create", none)
    ShouldBindJSONUpdate := ("update", none) }

/-- A request whose query and body fail to bind. -/
def badRequest : GinContext String String String :=
  { Param := fun _ => "42"
    RequestBodyIsNil := false
    RequestContext := 1
    ShouldBindQuery := ("", some ⟨"bad query"⟩)
    ShouldBindJSONCreate := ("", some ⟨"EOF"⟩)
    ShouldBindJSONUpdate := ("", some ⟨"EOF"⟩) }

/-- The fields of the response product in the examples. -/
def productShape : List (String × Kind) :=
  [("name", Kind.str), ("price", Kind.int)]

/-- A stored product with an identifier, a name, a price and an internal flag. -/
def storedProduct : Record :=
  [("id", Value.str "42"), ("name", Value.str "pen"), ("price", Value.int 3),
   ("archived", Value.bool false)]

/-- A service that returns the stored product from every method. -/
def recordService : IProductService Record String String String Nat :=
  { GetProductByID := fun _ _ => (storedProduct, none)
    ListProducts := fun _ _ => ([storedProduct], 3, none)
    Create := fun _ _ => (storedProduct, none)
    Update := fun _ _ _ => (storedProduct, none) }

/-! ## Theorems -/

section Theorems

variable {P R CQ UQ LQ G : Type}

/-- C1: in CreateProduct and UpdateProduct, when the JSON body binding returns
an error or the body is absent, the only response written has status 400 and
no service method is called, for every validator and every service. -/
theorem bind_failure_is_400_without_service (cp : Copier P R) (p : Product P CQ UQ LQ G)
    (c : GinContext CQ UQ LQ) :
    ((c.RequestBodyIsNil = true ∨ c.ShouldBindJSONCreate.2 ≠ none) →
      statuses (CreateProduct cp p c) = [400] ∧ serviceCalls (CreateProduct cp p c) = []) ∧
    ((c.RequestBodyIsNil = true ∨ c.ShouldBindJSONUpdate.2 ≠ none) →
      statuses (UpdateProduct cp p c) = [400] ∧ serviceCalls (UpdateProduct cp p c) = []) := by
  refine ⟨fun h => ?_, fun h => ?_⟩
  · have hc : (c.RequestBodyIsNil || c.ShouldBindJSONCreate.2.isSome) = true := by
      rcases h with h | h
      · simp [h]
      · simp [Option.isSome_iff_ne_none, h]
    simp [CreateProduct, hc, statuses, serviceCalls, Event.status?, Event.isServiceCall,
      StatusBadRequest]
  · have hc : (c.RequestBodyIsNil || c.ShouldBindJSONUpdate.2.isSome) = true := by
      rcases h with h | h
      · simp [h]
      · simp [Option.isSome_iff_ne_none, h]
    simp [UpdateProduct, hc, statuses, serviceCalls, Event.status?, Event.isServiceCall,
      StatusBadRequest]

/-- Witness of C1 at a request whose body fails to decode. -/
theorem bind_failure_is_400_without_service_witness :
    (badRequest.ShouldBindJSONCreate.2 ≠ none ∧
      statuses (CreateProduct okCopier ⟨okValidator, okService⟩ badRequest) = [400] ∧
      serviceCalls (CreateProduct okCopier ⟨okValidator, okService⟩ badRequest) = []) ∧
    (badRequest.ShouldBindJSONUpdate.2 ≠ none ∧
      statuses (UpdateProduct okCopier ⟨okValidator, okService⟩ badRequest) = [400] ∧
      serviceCalls (UpdateProduct okCopier ⟨okValidator, okService⟩ badRequest) = []) :=
  ⟨⟨by simp [badRequest],
    (bind_failure_is_400_without_service okCopier ⟨okValidator, okService⟩ badRequest).1
      (Or.inr (by simp [badRequest]))⟩,
   ⟨by simp [badRequest],
    (bind_failure_is_400_without_service okCopier ⟨okValidator, okService⟩ badRequest).2
      (Or.inr (by simp [badRequest]))⟩⟩

/-- C2: in CreateProduct and UpdateProduct, when the body decodes and
ValidateStruct returns an error, the only response written has status 400 and
no service method is called. -/
theorem validation_failure_is_400_without_service (cp : Copier P R)
    (p : Product P CQ UQ LQ G) (c : GinContext CQ UQ LQ) :
    (c.RequestBodyIsNil = false → c.ShouldBindJSONCreate.2 = none →
      p.validator.ValidateStruct (ReqValue.create c.ShouldBindJSONCreate.1) ≠ none →
      statuses (CreateProduct cp p c) = [400] ∧ serviceCalls (CreateProduct cp p c) = []) ∧
    (c.RequestBodyIsNil = false → c.ShouldBindJSONUpdate.2 = none →
      p.validator.ValidateStruct (ReqValue.update c.ShouldBindJSONUpdate.1) ≠ none →
      statuses (UpdateProduct cp p c) = [400] ∧ serviceCalls (UpdateProduct cp p c) = []) := by
  refine ⟨fun hb he hv => ?_, fun hb he hv => ?_⟩
  · obtain ⟨v, hv⟩ := Option.ne_none_iff_exists'.mp hv
    simp [CreateProduct, hb, he, hv, statuses, serviceCalls, Event.status?,
      Event.isServiceCall, StatusBadRequest]
  · obtain ⟨v, hv⟩ := Option.ne_none_iff_exists'.mp hv
    simp [UpdateProduct, hb, he, hv, statuses, serviceCalls, Event.status?,
      Event.isServiceCall, StatusBadRequest]

/-- Witness of C2 at a well-formed request that the validator rejects. -/
theorem validation_failure_is_400_without_service_witness :
    (statuses (CreateProduct okCopier ⟨rejectingValidator, okService⟩ goodRequest) = [400] ∧
      serviceCalls (CreateProduct okCopier ⟨rejectingValidator, okService⟩ goodRequest) = []) ∧
    (statuses (UpdateProduct okCopier ⟨rejectingValidator, okService⟩ goodRequest) = [400] ∧
      serviceCalls (UpdateProduct okCopier ⟨rejectingValidator, okService⟩ goodRequest) = []) :=
  ⟨(validation_failure_is_400_without_service okCopier ⟨rejectingValidator, okService⟩
      goodRequest).1 rfl rfl (by simp [rejectingValidator]),
   (validation_failure_is_400_without_service okCopier ⟨rejectingValidator, okService⟩
      goodRequest).2 rfl rfl (by simp [rejectingValidator])⟩

/-- C3: in CreateProduct and UpdateProduct, when the body decodes and
validates and the service call (Create, resp. Update) returns an error, the
only response written has status 500, so no response with a 2xx status is
written. -/
theorem service_failure_is_500_never_2xx (cp : Copier P R)
    (p : Product P CQ UQ LQ G) (c : GinContext CQ UQ LQ) :
    (c.RequestBodyIsNil = false → c.ShouldBindJSONCreate.2 = none →
      p.validator.ValidateStruct (ReqValue.create c.ShouldBindJSONCreate.1) = none →
      (p.service.Create (Context.ofRequest c.RequestContext) c.ShouldBindJSONCreate.1).2 ≠ none →
      statuses (CreateProduct cp p c) = [500] ∧
        ∀ s ∈ statuses (CreateProduct cp p c), is2xx s = false) ∧
    (c.RequestBodyIsNil = false → c.ShouldBindJSONUpdate.2 = none →
      p.validator.ValidateStruct (ReqValue.update c.ShouldBindJSONUpdate.1) = none →
      (p.service.Update (Context.ofRequest c.RequestContext) (c.Param "id")
        c.ShouldBindJSONUpdate.1).2 ≠ none →
      statuses (UpdateProduct cp p c) = [500] ∧
        ∀ s ∈ statuses (UpdateProduct cp p c), is2xx s = false) := by
  refine ⟨fun hb he hv hs => ?_, fun hb he hv hs => ?_⟩
  · obtain ⟨e, hs⟩ := Option.ne_none_iff_exists'.mp hs
    simp [CreateProduct, hb, he, hv, hs, statuses, Event.status?, is2xx,
      StatusInternalServerError]
  · obtain ⟨e, hs⟩ := Option.ne_none_iff_exists'.mp hs
    simp [UpdateProduct, hb, he, hv, hs, statuses, Event.status?, is2xx,
      StatusInternalServerError]

/-- Witness of C3 at a valid request served by a failing service. -/
theorem service_failure_is_500_never_2xx_witness :
    (statuses (CreateProduct okCopier ⟨okValidator, failingService⟩ goodRequest) = [500] ∧
      ∀ s ∈ statuses (CreateProduct okCopier ⟨okValidator, failingService⟩ goodRequest),
        is2xx s = false) ∧
    (statuses (UpdateProduct okCopier ⟨okValidator, failingService⟩ goodRequest) = [500] ∧
      ∀ s ∈ statuses (UpdateProduct okCopier ⟨okValidator, failingService⟩ goodRequest),
        is2xx s = false) :=
  ⟨(service_failure_is_500_never_2xx okCopier ⟨okValidator, failingService⟩ goodRequest).1
      rfl rfl rfl (by simp [failingService]),
   (service_failure_is_500_never_2xx okCopier ⟨okValidator, failingService⟩ goodRequest).2
      rfl rfl rfl (by simp [failingService])⟩

/-- C4: in GetProductByID, for every id and every error the service lookup
returns, the only response written is status 400 with the envelope built from
data nil and the message equal to the text of the service error, and no
copier.Copy call is made. -/
theorem get_service_failure_is_400_envelope (cp : Copier P R)
    (p : Product P CQ UQ LQ G) (c : GinContext CQ UQ LQ) (e : Error)
    (hs : (p.service.GetProductByID (Context.ofRequest c.RequestContext)
      (c.Param "uuid")).2 = some e) :
    responses (GetProductByID cp p c) =
      [Event.ginJSON 400 (Body.PrepareResponse none e.text "")] ∧
    copies (GetProductByID cp p c) = [] := by
  simp [GetProductByID, hs, responses, copies, Event.status?, Event.isCopy, StatusBadRequest]

/-- Witness of C4 at a lookup that fails with "not found". -/
theorem get_service_failure_is_400_envelope_witness :
    responses (GetProductByID okCopier ⟨okValidator, failingService⟩ goodRequest) =
      [Event.ginJSON 400 (Body.PrepareResponse none "not found" "")] ∧
    copies (GetProductByID okCopier ⟨okValidator, failingService⟩ goodRequest) = [] :=
  get_service_failure_is_400_envelope okCopier ⟨okValidator, failingService⟩ goodRequest
    ⟨"not found"⟩ rfl

/-- C8: in ListProducts, when the query-string binding returns an error, the
only response written is status 400 with the bare object whose single key
"error" holds the text of the binding error, and the service is not called. -/
theorem list_bind_failure_is_400_bare_error (cp : Copier P R)
    (p : Product P CQ UQ LQ G) (c : GinContext CQ UQ LQ) (e : Error)
    (hb : c.ShouldBindQuery.2 = some e) :
    responses (ListProducts cp p c) = [Event.ginJSON 400 (Body.H [("error", e.text)])] ∧
    serviceCalls (ListProducts cp p c) = [] := by
  simp [ListProducts, hb, responses, serviceCalls, Event.status?, Event.isServiceCall,
    StatusBadRequest]

/-- Witness of C8 at a query that fails to bind with "bad query". -/
theorem list_bind_failure_is_400_bare_error_witness :
    responses (ListProducts okCopier ⟨okValidator, okService⟩ badRequest) =
      [Event.ginJSON 400 (Body.H [("error", "bad query")])] ∧
    serviceCalls (ListProducts okCopier ⟨okValidator, okService⟩ badRequest) = [] :=
  list_bind_failure_is_400_bare_error okCopier ⟨okValidator, okService⟩ badRequest
    ⟨"bad query"⟩ rfl

/-- Copying one record into an empty sequence either fails with the error of
the field copy or yields exactly the one copied record. -/
theorem CopyToSlice_nil (cp : Copier P R) (src : P) :
    CopyToSlice cp [] src =
      match (cp.CopyFields cp.zero src).2 with
      | some e => ([], some e)
      | none => ([(cp.CopyFields cp.zero src).1], none) := by
  unfold CopyToSlice CopySlice
  rcases h : cp.CopyFields cp.zero src with ⟨dest, _ | e⟩ <;> simp [CopySlice]

/-- For every copier: on the success path of CreateProduct and UpdateProduct
the service is called exactly once and the only response written is status 200
with the sequence that copier.Copy produced from the returned record. -/
theorem write_success_payload_is_copy (cp : Copier P R)
    (p : Product P CQ UQ LQ G) (c : GinContext CQ UQ LQ) :
    (c.RequestBodyIsNil = false → c.ShouldBindJSONCreate.2 = none →
      p.validator.ValidateStruct (ReqValue.create c.ShouldBindJSONCreate.1) = none →
      (p.service.Create (Context.ofRequest c.RequestContext) c.ShouldBindJSONCreate.1).2 = none →
      (CopyToSlice cp []
        (p.service.Create (Context.ofRequest c.RequestContext)
          c.ShouldBindJSONCreate.1).1).2 = none →
      serviceCalls (CreateProduct cp p c) =
        [Event.serviceCreate (Context.ofRequest c.RequestContext) c.ShouldBindJSONCreate.1] ∧
      responses (CreateProduct cp p c) =
        [Event.responseJSON 200 (Payload.products (CopyToSlice cp []
          (p.service.Create (Context.ofRequest c.RequestContext)
            c.ShouldBindJSONCreate.1).1).1)] ∧
      (CopyToSlice cp []
        (p.service.Create (Context.ofRequest c.RequestContext)
          c.ShouldBindJSONCreate.1).1).1 =
        [(cp.CopyFields cp.zero
          (p.service.Create (Context.ofRequest c.RequestContext)
            c.ShouldBindJSONCreate.1).1).1]) ∧
    (c.RequestBodyIsNil = false → c.ShouldBindJSONUpdate.2 = none →
      p.validator.ValidateStruct (ReqValue.update c.ShouldBindJSONUpdate.1) = none →
      (p.service.Update (Context.ofRequest c.RequestContext) (c.Param "id")
        c.ShouldBindJSONUpdate.1).2 = none →
      (CopyToSlice cp []
        (p.service.Update (Context.ofRequest c.RequestContext) (c.Param "id")
          c.ShouldBindJSONUpdate.1).1).2 = none →
      serviceCalls (UpdateProduct cp p c) =
        [Event.serviceUpdate (Context.ofRequest c.RequestContext) (c.Param "id")
          c.ShouldBindJSONUpdate.1] ∧
      responses (UpdateProduct cp p c) =
        [Event.responseJSON 200 (Payload.products (CopyToSlice cp []
          (p.service.Update (Context.ofRequest c.RequestContext) (c.Param "id")
            c.ShouldBindJSONUpdate.1).1).1)] ∧
      (CopyToSlice cp []
        (p.service.Update (Context.ofRequest c.RequestContext) (c.Param "id")
          c.ShouldBindJSONUpdate.1).1).1 =
        [(cp.CopyFields cp.zero
          (p.service.Update (Context.ofRequest c.RequestContext) (c.Param "id")
            c.ShouldBindJSONUpdate.1).1).1]) := by
  refine ⟨fun hb he hv hs hk => ⟨?_, ?_, ?_⟩, fun hb he hv hs hk => ⟨?_, ?_, ?_⟩⟩
  · simp [CreateProduct, hb, he, hv, hs, hk, serviceCalls, Event.isServiceCall]
  · simp [CreateProduct, hb, he, hv, hs, hk, responses, Event.status?, StatusOK]
  · rw [CopyToSlice_nil] at hk ⊢
    split at hk <;> simp_all
  · simp [UpdateProduct, hb, he, hv, hs, hk, serviceCalls, Event.isServiceCall]
  · simp [UpdateProduct, hb, he, hv, hs, hk, responses, Event.status?, StatusOK]
  · rw [CopyToSlice_nil] at hk ⊢
    split at hk <;> simp_all

/-- A field copy that succeeds keeps the field names of the target and gives
every field the value the source holds under the same name. -/
theorem copyFieldsInto_ok (src : Record) :
    ∀ dst : Record, (copyFieldsInto src dst).2 = none →
      (copyFieldsInto src dst).1.map Prod.fst = dst.map Prod.fst ∧
      ∀ n v, (n, v) ∈ (copyFieldsInto src dst).1 → src.lookup n = some v
  | [], _ => by simp [copyFieldsInto]
  | (n, old) :: rest, h => by
    unfold copyFieldsInto at h ⊢
    cases hl : src.lookup n with
    | none => simp [hl] at h
    | some w =>
      by_cases hk : w.kind = old.kind
      · simp only [hl, hk, if_true] at h ⊢
        obtain ⟨ih1, ih2⟩ := copyFieldsInto_ok src rest h
        refine ⟨by simp [ih1], ?_⟩
        intro m v hm
        rcases List.mem_cons.mp hm with hm | hm
        · cases hm
          exact hl
        · exact ih2 m v hm
      · simp [hl, hk] at h

/-- The field names of a zero record are those of its struct type. -/
theorem zeroRecord_names (shape : List (String × Kind)) :
    (zeroRecord shape).map Prod.fst = shape.map Prod.fst := by
  simp [zeroRecord, Function.comp_def]

/-- C6: in CreateProduct and UpdateProduct, when the body decodes and
validates, the service returns a record without error and the copy succeeds,
the service is called exactly once, with the request's context, the decoded
request and (for Update) the path parameter id; the only response written is
status 200 (not 201) and its payload is one response product whose fields are
exactly those of the response struct type, each holding the value the record
returned by the service holds under the same name. -/
theorem write_success_is_200_projection (shape : List (String × Kind))
    (p : Product Record CQ UQ LQ G) (c : GinContext CQ UQ LQ) (created updated : Record) :
    (c.RequestBodyIsNil = false → c.ShouldBindJSONCreate.2 = none →
      p.validator.ValidateStruct (ReqValue.create c.ShouldBindJSONCreate.1) = none →
      p.service.Create (Context.ofRequest c.RequestContext) c.ShouldBindJSONCreate.1 =
        (created, none) →
      (CopyToSlice (fieldCopier shape) [] created).2 = none →
      serviceCalls (CreateProduct (R := Record) (fieldCopier shape) p c) =
        [Event.serviceCreate (Context.ofRequest c.RequestContext) c.ShouldBindJSONCreate.1] ∧
      responses (CreateProduct (fieldCopier shape) p c) =
        [Event.responseJSON 200
          (Payload.products [(copyFieldsInto created (zeroRecord shape)).1])] ∧
      statuses (CreateProduct (R := Record) (fieldCopier shape) p c) = [200] ∧
      (copyFieldsInto created (zeroRecord shape)).1.map Prod.fst = shape.map Prod.fst ∧
      ∀ n v, (n, v) ∈ (copyFieldsInto created (zeroRecord shape)).1 →
        created.lookup n = some v) ∧
    (c.RequestBodyIsNil = false → c.ShouldBindJSONUpdate.2 = none →
      p.validator.ValidateStruct (ReqValue.update c.ShouldBindJSONUpdate.1) = none →
      p.service.Update (Context.ofRequest c.RequestContext) (c.Param "id")
        c.ShouldBindJSONUpdate.1 = (updated, none) →
      (CopyToSlice (fieldCopier shape) [] updated).2 = none →
      serviceCalls (UpdateProduct (R := Record) (fieldCopier shape) p c) =
        [Event.serviceUpdate (Context.ofRequest c.RequestContext) (c.Param "id")
          c.ShouldBindJSONUpdate.1] ∧
      responses (UpdateProduct (fieldCopier shape) p c) =
        [Event.responseJSON 200
          (Payload.products [(copyFieldsInto updated (zeroRecord shape)).1])] ∧
      statuses (UpdateProduct (R := Record) (fieldCopier shape) p c) = [200] ∧
      (copyFieldsInto updated (zeroRecord shape)).1.map Prod.fst = shape.map Prod.fst ∧
      ∀ n v, (n, v) ∈ (copyFieldsInto updated (zeroRecord shape)).1 →
        updated.lookup n = some v) := by
  refine ⟨fun hb he hv hs hk => ?_, fun hb he hv hs hk => ?_⟩
  · have hc : (copyFieldsInto created (zeroRecord shape)).2 = none := by
      rw [CopyToSlice_nil] at hk
      split at hk
      · simp at hk
      · assumption
    have hk1 : (CopyToSlice (fieldCopier shape) [] created).1 =
        [(copyFieldsInto created (zeroRecord shape)).1] := by
      rw [CopyToSlice_nil]
      simp [fieldCopier, hc]
    obtain ⟨h1, h2⟩ := copyFieldsInto_ok created (zeroRecord shape) hc
    refine ⟨?_, ?_, ?_, by rw [h1, zeroRecord_names], h2⟩
    · simp [CreateProduct, hb, he, hv, hs, hk, serviceCalls, Event.isServiceCall]
    · simp [CreateProduct, hb, he, hv, hs, hk, hk1, responses, Event.status?, StatusOK]
    · simp [CreateProduct, hb, he, hv, hs, hk, statuses, Event.status?, StatusOK]
  · have hc : (copyFieldsInto updated (zeroRecord shape)).2 = none := by
      rw [CopyToSlice_nil] at hk
      split at hk
      · simp at hk
      · assumption
    have hk1 : (CopyToSlice (fieldCopier shape) [] updated).1 =
        [(copyFieldsInto updated (zeroRecord shape)).1] := by
      rw [CopyToSlice_nil]
      simp [fieldCopier, hc]
    obtain ⟨h1, h2⟩ := copyFieldsInto_ok updated (zeroRecord shape) hc
    refine ⟨?_, ?_, ?_, by rw [h1, zeroRecord_names], h2⟩
    · simp [UpdateProduct, hb, he, hv, hs, hk, serviceCalls, Event.isServiceCall]
    · simp [UpdateProduct, hb, he, hv, hs, hk, hk1, responses, Event.status?, StatusOK]
    · simp [UpdateProduct, hb, he, hv, hs, hk, statuses, Event.status?, StatusOK]

/-- Witness of C6: a valid request and a service returning the stored product;
the response product holds its name and price and nothing else. -/
theorem write_success_is_200_projection_witness :
    (serviceCalls (CreateProduct (R := Record) (fieldCopier productShape)
        ⟨okValidator, recordService⟩ goodRequest) =
        [Event.serviceCreate (Context.ofRequest 1) "create"] ∧
      responses (CreateProduct (fieldCopier productShape)
        ⟨okValidator, recordService⟩ goodRequest) =
        [Event.responseJSON 200
          (Payload.products [[("name", Value.str "pen"), ("price", Value.int 3)]])]) ∧
    (serviceCalls (UpdateProduct (R := Record) (fieldCopier productShape)
        ⟨okValidator, recordService⟩ goodRequest) =
        [Event.serviceUpdate (Context.ofRequest 1) "42" "update"] ∧
      responses (UpdateProduct (fieldCopier productShape)
        ⟨okValidator, recordService⟩ goodRequest) =
        [Event.responseJSON 200
          (Payload.products [[("name", Value.str "pen"), ("price", Value.int 3)]])]) :=
  ⟨⟨((write_success_is_200_projection productShape ⟨okValidator, recordService⟩ goodRequest
        storedProduct storedProduct).1 rfl rfl rfl rfl (by decide)).1,
    ((write_success_is_200_projection productShape ⟨okValidator, recordService⟩ goodRequest
        storedProduct storedProduct).1 rfl rfl rfl rfl (by decide)).2.1⟩,
   ⟨((write_success_is_200_projection productShape ⟨okValidator, recordService⟩ goodRequest
        storedProduct storedProduct).2 rfl rfl rfl rfl (by decide)).1,
    ((write_success_is_200_projection productShape ⟨okValidator, recordService⟩ goodRequest
        storedProduct storedProduct).2 rfl rfl rfl rfl (by decide)).2.1⟩⟩

/-- C7: in ListProducts, when the query binds and the service returns an empty
sequence of products with a pagination value and no error, the only response
written is status 200 with an empty products sequence and exactly that
pagination value; no error response is written. -/
theorem list_empty_is_200 (cp : Copier P R) (p : Product P CQ UQ LQ G)
    (c : GinContext CQ UQ LQ) (g : G)
    (hb : c.ShouldBindQuery.2 = none)
    (hs : p.service.ListProducts Context.ofGin c.ShouldBindQuery.1 = ([], g, none)) :
    responses (ListProducts cp p c) =
      [Event.responseJSON 200 (Payload.list { Products := [], Pagination := g })] ∧
    statuses (ListProducts cp p c) = [200] := by
  simp [ListProducts, hb, hs, CopySlice, responses, statuses, Event.status?, StatusOK]

/-- Witness of C7: an empty listing with pagination 3. -/
theorem list_empty_is_200_witness :
    responses (ListProducts okCopier ⟨okValidator, okService⟩ goodRequest) =
      [Event.responseJSON 200 (Payload.list { Products := [], Pagination := 3 })] ∧
    statuses (ListProducts okCopier ⟨okValidator, okService⟩ goodRequest) = [200] :=
  list_empty_is_200 okCopier ⟨okValidator, okService⟩ goodRequest 3 rfl rfl

/-- In ListProducts, CreateProduct and UpdateProduct a failing copy after a
successful service call is answered with status 500 only. -/
theorem copy_failure_is_500_in_checked_handlers (cp : Copier P R)
    (p : Product P CQ UQ LQ G) (c : GinContext CQ UQ LQ) :
    (c.ShouldBindQuery.2 = none →
      (p.service.ListProducts Context.ofGin c.ShouldBindQuery.1).2.2 = none →
      (CopySlice cp [] (p.service.ListProducts Context.ofGin c.ShouldBindQuery.1).1).2 ≠ none →
      statuses (ListProducts cp p c) = [500]) ∧
    (c.RequestBodyIsNil = false → c.ShouldBindJSONCreate.2 = none →
      p.validator.ValidateStruct (ReqValue.create c.ShouldBindJSONCreate.1) = none →
      (p.service.Create (Context.ofRequest c.RequestContext) c.ShouldBindJSONCreate.1).2 = none →
      (CopyToSlice cp []
        (p.service.Create (Context.ofRequest c.RequestContext)
          c.ShouldBindJSONCreate.1).1).2 ≠ none →
      statuses (CreateProduct cp p c) = [500]) ∧
    (c.RequestBodyIsNil = false → c.ShouldBindJSONUpdate.2 = none →
      p.validator.ValidateStruct (ReqValue.update c.ShouldBindJSONUpdate.1) = none →
      (p.service.Update (Context.ofRequest c.RequestContext) (c.Param "id")
        c.ShouldBindJSONUpdate.1).2 = none →
      (CopyToSlice cp []
        (p.service.Update (Context.ofRequest c.RequestContext) (c.Param "id")
          c.ShouldBindJSONUpdate.1).1).2 ≠ none →
      statuses (UpdateProduct cp p c) = [500]) := by
  refine ⟨fun hb hs hk => ?_, fun hb he hv hs hk => ?_, fun hb he hv hs hk => ?_⟩
  · obtain ⟨e, hk⟩ := Option.ne_none_iff_exists'.mp hk
    simp [ListProducts, hb, hs, hk, statuses, Event.status?, StatusInternalServerError]
  · obtain ⟨e, hk⟩ := Option.ne_none_iff_exists'.mp hk
    simp [CreateProduct, hb, he, hv, hs, hk, statuses, Event.status?,
      StatusInternalServerError]
  · obtain ⟨e, hk⟩ := Option.ne_none_iff_exists'.mp hk
    simp [UpdateProduct, hb, he, hv, hs, hk, statuses, Event.status?,
      StatusInternalServerError]

/-- C5 (the code departs from the claim in GetProductByID): with a service
that returns product 7 and a copier whose field copy fails, GetProductByID
discards the copy error and writes status 200, not 500. -/
theorem get_copy_failure_is_200 :
    (okService.GetProductByID (Context.ofRequest 1) "42").2 = none ∧
    (CopyStruct failingCopier failingCopier.zero 7).2 = some ⟨"copy failed"⟩ ∧
    statuses (GetProductByID failingCopier ⟨okValidator, okService⟩ goodRequest) = [200] ∧
    500 ∉ statuses (GetProductByID failingCopier ⟨okValidator, okService⟩ goodRequest) := by
  simp [okService, CopyStruct, failingCopier, GetProductByID, goodRequest,
    statuses, Event.status?, StatusOK]

/-- In GetProductByID, CreateProduct and UpdateProduct every service call
receives the context of the request. -/
theorem request_context_in_other_handlers (cp : Copier P R)
    (p : Product P CQ UQ LQ G) (c : GinContext CQ UQ LQ) :
    (∀ x ∈ serviceContexts (GetProductByID cp p c), x = Context.ofRequest c.RequestContext) ∧
    (∀ x ∈ serviceContexts (CreateProduct cp p c), x = Context.ofRequest c.RequestContext) ∧
    (∀ x ∈ serviceContexts (UpdateProduct cp p c), x = Context.ofRequest c.RequestContext) := by
  refine ⟨?_, ?_, ?_⟩
  · intro x hx
    simp only [GetProductByID, serviceContexts] at hx
    split at hx <;> simp [Event.context?] at hx <;> exact hx
  · intro x hx
    simp only [CreateProduct, serviceContexts] at hx
    repeat' split at hx
    all_goals simp [Event.context?] at hx
    all_goals exact hx
  · intro x hx
    simp only [UpdateProduct, serviceContexts] at hx
    repeat' split at hx
    all_goals simp [Event.context?] at hx
    all_goals exact hx

/-- C10 (the code departs from the claim in ListProducts): for a query that
binds, ListProducts calls the service once, with the gin context itself and
not with the context of the request. -/
theorem list_passes_gin_context :
    serviceCalls (ListProducts okCopier ⟨okValidator, okService⟩ goodRequest) =
      [Event.serviceListProducts Context.ofGin "page=1"] ∧
    serviceContexts (ListProducts okCopier ⟨okValidator, okService⟩ goodRequest) =
      [Context.ofGin] ∧
    Context.ofRequest goodRequest.RequestContext ∉
      serviceContexts (ListProducts okCopier ⟨okValidator, okService⟩ goodRequest) := by
  simp [ListProducts, okService, goodRequest, CopySlice, serviceCalls, serviceContexts,
    Event.isServiceCall, Event.context?]

/-- C9 as stated fails: when the validator rejects a decoded body,
CreateProduct writes the 400 error response and the trace holds no log entry
at all. -/
theorem validation_failure_is_not_logged :
    CreateProduct okCopier ⟨rejectingValidator, okService⟩ goodRequest =
      [Event.responseError 400 (some ⟨"name is required"⟩) "Invalid parameters"] ∧
    (CreateProduct okCopier ⟨rejectingValidator, okService⟩ goodRequest).any
      Event.isErrorResponse = true ∧
    (CreateProduct okCopier ⟨rejectingValidator, okService⟩ goodRequest).any
      Event.isLog = false ∧
    errorsLogged (CreateProduct okCopier ⟨rejectingValidator, okService⟩ goodRequest) =
      false := by
  simp [CreateProduct, rejectingValidator, goodRequest, StatusBadRequest, errorsLogged,
    errorsLoggedFrom, Event.isErrorResponse, Event.status?, Event.isLog]

/-- C9, amended: in GetProductByID and ListProducts on every path, and in
CreateProduct and UpdateProduct on every path other than a validation failure
(body absent, binding error, or the validator accepts), every error response
is directly preceded by a log entry for the error it reports; on a validation
failure CreateProduct and UpdateProduct write the 400 response and no log
entry. -/
theorem errors_logged_except_validation (cp : Copier P R)
    (p : Product P CQ UQ LQ G) (c : GinContext CQ UQ LQ) :
    errorsLogged (GetProductByID cp p c) = true ∧
    errorsLogged (ListProducts cp p c) = true ∧
    ((c.RequestBodyIsNil = true ∨ c.ShouldBindJSONCreate.2 ≠ none ∨
        p.validator.ValidateStruct (ReqValue.create c.ShouldBindJSONCreate.1) = none) →
      errorsLogged (CreateProduct cp p c) = true) ∧
    ((c.RequestBodyIsNil = true ∨ c.ShouldBindJSONUpdate.2 ≠ none ∨
        p.validator.ValidateStruct (ReqValue.update c.ShouldBindJSONUpdate.1) = none) →
      errorsLogged (UpdateProduct cp p c) = true) ∧
    (c.RequestBodyIsNil = false → c.ShouldBindJSONCreate.2 = none →
      p.validator.ValidateStruct (ReqValue.create c.ShouldBindJSONCreate.1) ≠ none →
      statuses (CreateProduct cp p c) = [400] ∧
        (CreateProduct cp p c).any Event.isLog = false) ∧
    (c.RequestBodyIsNil = false → c.ShouldBindJSONUpdate.2 = none →
      p.validator.ValidateStruct (ReqValue.update c.ShouldBindJSONUpdate.1) ≠ none →
      statuses (UpdateProduct cp p c) = [400] ∧
        (UpdateProduct cp p c).any Event.isLog = false) := by
  refine ⟨?_, ?_, fun h => ?_, fun h => ?_, fun hb he hv => ?_, fun hb he hv => ?_⟩
  · simp only [GetProductByID, errorsLogged]
    split <;>
      simp [errorsLoggedFrom, Event.isErrorResponse, Event.status?, Event.logs,
        Event.reported?, LogArg.mentions, StatusBadRequest, StatusOK]
  · simp only [ListProducts, errorsLogged]
    repeat' split
    all_goals
      simp [errorsLoggedFrom, Event.isErrorResponse, Event.status?, Event.logs,
        Event.reported?, LogArg.mentions, StatusBadRequest, StatusOK,
        StatusInternalServerError, List.lookup]
  · simp only [CreateProduct, errorsLogged]
    repeat' split
    all_goals
      simp_all [errorsLoggedFrom, Event.isErrorResponse, Event.status?, Event.logs,
        Event.reported?, LogArg.mentions, StatusBadRequest, StatusOK,
        StatusInternalServerError]
  · simp only [UpdateProduct, errorsLogged]
    repeat' split
    all_goals
      simp_all [errorsLoggedFrom, Event.isErrorResponse, Event.status?, Event.logs,
        Event.reported?, LogArg.mentions, StatusBadRequest, StatusOK,
        StatusInternalServerError]
  · obtain ⟨v, hv⟩ := Option.ne_none_iff_exists'.mp hv
    simp [CreateProduct, hb, he, hv, statuses, Event.status?, Event.isLog, StatusBadRequest]
  · obtain ⟨v, hv⟩ := Option.ne_none_iff_exists'.mp hv
    simp [UpdateProduct, hb, he, hv, statuses, Event.status?, Event.isLog, StatusBadRequest]

/-- Witness of the amended C9: a service error and a binding error are logged
before their responses, a validation failure is not. -/
theorem errors_logged_except_validation_witness :
    errorsLogged (CreateProduct okCopier ⟨okValidator, failingService⟩ goodRequest) = true ∧
    errorsLogged (UpdateProduct okCopier ⟨okValidator, okService⟩ badRequest) = true ∧
    (statuses (CreateProduct okCopier ⟨rejectingValidator, okService⟩ goodRequest) = [400] ∧
      (CreateProduct okCopier ⟨rejectingValidator, okService⟩ goodRequest).any
        Event.isLog = false) ∧
    (statuses (UpdateProduct okCopier ⟨rejectingValidator, okService⟩ goodRequest) = [400] ∧
      (UpdateProduct okCopier ⟨rejectingValidator, okService⟩ goodRequest).any
        Event.isLog = false) :=
  ⟨(errors_logged_except_validation okCopier ⟨okValidator, failingService⟩ goodRequest).2.2.1
      (Or.inr (Or.inr rfl)),
   (errors_logged_except_validation okCopier ⟨okValidator, okService⟩ badRequest).2.2.2.1
      (Or.inr (Or.inl (by simp [badRequest]))),
   (errors_logged_except_validation okCopier ⟨rejectingValidator, okService⟩
      goodRequest).2.2.2.2.1 rfl rfl (by simp [rejectingValidator]),
   (errors_logged_except_validation okCopier ⟨rejectingValidator, okService⟩
      goodRequest).2.2.2.2.2 rfl rfl (by simp [rejectingValidator])⟩

end Theorems

end GoShop
